import Mathlib

/-!
# Verification of the DexPack install/uninstall/trust protocol

Shallow embedding of `src/dexpack.py` (the `DexPack` cog and its module-level
helpers).  External effects are made explicit:

* the network is an oracle `net : String → FetchResult` mapping a URL to the
  response of `requests.get` (status plus base64-decoded body);
* the YAML library is an oracle `parse : String → Manifest` turning the decoded
  manifest text into the attribute record `Package(yaml_content)` exposes;
* the filesystem and the Discord side effects are recorded in trace structures
  (messages sent, URLs fetched, files written, directories made or removed,
  extension load/unload names) instead of being performed;
* the module-global `verified` flag is threaded as explicit state
  (`verified0` in, `verifiedAfter` out);
* `script_settings` is not defined in `src/dexpack.py`; its `safe_mode`
  attribute is modelled from the spec as the boolean parameter `safeMode`
  (the spec calls it "a global safe-mode setting");
* the running host identity (`dir_type` in the source, computed from which
  settings directory exists) is the parameter `dirType`;
* an uncaught Python exception is recorded in the trace `error` field.

Python-semantics notes used below, each visible in the source:

* `verify_packages` (lines 41–55) assigns the response to `request` but then
  reads `r.status_code`, and `r` is bound nowhere in the module, so the call
  raises `NameError` on every execution, before either branch of the status
  check can run (the loop at lines 50–55 would moreover split the module
  boolean `verified`, not the response body, but it is unreachable).
* In `install`, a bare name found in the registry takes
  `package_info = list(found_package)` where `found_package` is the
  one-element list of matching `(name, link)` dict items (dict keys are
  unique), so `original_name = package_info[1]` raises `IndexError`.
* A URL-shaped argument is turned into
  `package.replace("https://github.com/", "").split("/")`; `original_name =
  package_info[1]` likewise raises `IndexError` when that list has fewer than
  two elements.
* In `uninstall`, `shutil.rmtree` raises `FileNotFoundError` when the package
  directory does not exist; there is no guard or handler around it.
-/

/-- Result of one `requests.get` call: an ok response carries the decoded
body text, anything else carries the HTTP status code. -/
inductive FetchResult where
  | ok (content : String)
  | err (status : Nat)
deriving DecidableEq, Repr

/-- `True` exactly when the response status compares equal to
`request_codes.ok`. -/
def FetchResult.isOk : FetchResult → Bool
  | .ok _ => true
  | .err _ => false

/-- The decoded body of an ok response (only ever read on ok responses). -/
def FetchResult.contentOf : FetchResult → String
  | .ok c => c
  | .err _ => ""

/-- The status code of a failing response (only ever read on failures). -/
def FetchResult.statusOf : FetchResult → Nat
  | .ok _ => 0
  | .err s => s

/-- The attributes the install path reads off the parsed `package.yml`
(`name, author, description, version, files[], supported[]`, optional
`color` and `logo`), per the manifest interface the code relies on. -/
structure Manifest where
  name : String
  author : String
  description : String
  version : String
  files : List String
  supported : List String
  color : Option String := none
  logo : Option String := none
deriving DecidableEq, Repr

/-- Messages the cog sends (or edits) through the Discord context, abstracted
from their English rendering to the data each one carries. -/
inductive Msg where
  /-- "The link you sent is not a valid GitHub link." (line 223) -/
  | invalidLink
  /-- The safe-mode caution asking the owner to run `verify` (lines 232–238). -/
  | caution
  /-- The "Installing {original_name}" embed (lines 269–282). -/
  | installing (name : String)
  /-- "Failed to install {repo}. Report this issue to {owner}." (lines 284–288) -/
  | manifestFetchFailed (repo owner : String) (status : Nat)
  /-- "This package does not support {dir_type}." (line 264) -/
  | unsupportedPlatform (platform : String)
  /-- "Failed to install the {file} file. Report this issue to {author}."
  (lines 304–308) -/
  | fileFetchFailed (file author : String) (status : Nat)
  /-- The "{original_name} Installed" embed edit (lines 317–325). -/
  | installed (name : String)
  /-- The "Removed {package}" embed of `uninstall` (lines 166–178). -/
  | removed (name : String)
deriving DecidableEq, Repr

/-- `True` exactly on per-file failure reports. -/
def Msg.isFileFail : Msg → Bool
  | .fileFetchFailed _ _ _ => true
  | _ => false

/-- Uncaught Python exceptions the embedded code can raise. -/
inductive PyErr where
  | nameError (n : String)
  | indexError
  | fileNotFoundError
deriving DecidableEq, Repr

/-- Everything one `install` invocation did, in order within each field. -/
structure InstallTrace where
  /-- Messages sent (and the final embed edit), in order. -/
  sent : List Msg := []
  /-- URLs passed to `requests.get`, in order. -/
  fetches : List String := []
  /-- Writes of the manifest descriptor under `{dir_type}/data/` (line 257). -/
  dataWrites : List (String × String) := []
  /-- Writes of listed package files under `{dir_type}/packages/` (line 301). -/
  packageWrites : List (String × String) := []
  /-- Directories created (line 292). -/
  mkdirs : List String := []
  /-- The module-global `verified` flag when the invocation ends. -/
  verifiedAfter : Bool
  /-- The extension name a load (or, if already loaded, reload) was requested
  for (lines 310–313), when reached. -/
  loadAttempted : Option String := none
  /-- An uncaught exception, when one is raised. -/
  error : Option PyErr := none
deriving DecidableEq, Repr

/-- Does the character list `s` begin with the pattern `pat`?  Helper for the
Python `str` methods below. -/
def charsMatch : List Char → List Char → Bool
  | _, [] => true
  | [], _ :: _ => false
  | c :: s, p :: ps => c == p && charsMatch s ps

/-- Python `s.startswith(pat)`. -/
def pyStartsWith (s pat : String) : Bool :=
  charsMatch s.data pat.data

/-- Fuel-indexed worker for `pyReplace`; each step consumes at least one
character of the remaining text, so fuel = length of the text suffices. -/
def pyReplaceAux (old new : List Char) : Nat → List Char → List Char
  | 0, s => s
  | _ + 1, [] => []
  | fuel + 1, c :: s =>
    if charsMatch (c :: s) old then
      new ++ pyReplaceAux old new fuel (List.drop old.length (c :: s))
    else
      c :: pyReplaceAux old new fuel s

/-- Python `s.replace(old, new)`: every non-overlapping occurrence of `old`,
left to right, becomes `new`. -/
def pyReplace (s old new : String) : String :=
  ⟨pyReplaceAux old.data new.data s.data.length s.data⟩

/-- Fuel-indexed worker for `pySplit`; `acc` holds the current field
reversed. -/
def pySplitAux (sep : List Char) : Nat → List Char → List Char → List String
  | 0, acc, rest => [⟨acc.reverse ++ rest⟩]
  | fuel + 1, acc, rest =>
    match rest with
    | [] => [⟨acc.reverse⟩]
    | c :: s =>
      if charsMatch (c :: s) sep then
        (⟨acc.reverse⟩ : String) :: pySplitAux sep fuel [] (List.drop sep.length (c :: s))
      else
        pySplitAux sep fuel (c :: acc) s

/-- Python `s.split(sep)` for a non-empty separator: the fields between the
occurrences of `sep`, so the result always has at least one element. -/
def pySplit (s sep : String) : List String :=
  pySplitAux sep.data s.data.length [] s.data

/-- The GitHub contents root for a repository (line 250). -/
def apiLink (owner repo : String) : String :=
  "https://api.github.com/repos/" ++ owner ++ "/" ++ repo ++ "/contents/"

/-- Where a listed package file is written: `{dir_type}/packages/{name}/{file}`
(lines 295 and 301). -/
def pkgFilePath (dirType name file : String) : String :=
  dirType ++ "/packages/" ++ (name ++ "/" ++ file)

/-- Accumulated effect of the per-file download loop. -/
structure LoopResult where
  writes : List (String × String) := []
  msgs : List Msg := []
  fetches : List String := []
deriving DecidableEq, Repr

/-- The per-file download loop of `install` (lines 294–308): each listed file
is fetched from `{link}{name}/{file}`; an ok response is written to
`{dir_type}/packages/{name}/{file}`, a failing one sends a report naming the
file and the manifest author and the loop continues. -/
def installLoop (net : String → FetchResult) (link dirType name author : String) :
    List String → LoopResult
  | [] => {}
  | file :: rest =>
    let r := installLoop net link dirType name author rest
    match net (link ++ (name ++ "/" ++ file)) with
    | .ok c =>
      { writes := (pkgFilePath dirType name file, c) :: r.writes,
        msgs := r.msgs,
        fetches := (link ++ (name ++ "/" ++ file)) :: r.fetches }
    | .err s =>
      { writes := r.writes,
        msgs := .fileFetchFailed file author s :: r.msgs,
        fetches := (link ++ (name ++ "/" ++ file)) :: r.fetches }

namespace DexPack

/-- Embedding of the `install` command (lines 193–325).

Control flow, in source order:
1. a URL-shaped argument is stripped of `https://github.com/` and split on
   `/` into `package_info`; a bare name is looked up in `verified_packages`
   (sending the invalid-link message and returning when absent, raising
   `IndexError` at `original_name = package_info[1]` when present, since
   `list(found_package)` is a one-element list of pairs);
2. `original_name = package_info[1]` (`IndexError` when the split has fewer
   than two parts);
3. the safe-mode gate (lines 231–240): with safe mode on, `verified` false
   and the reference unverified, send the caution and return with no fetch;
4. consume the flag (lines 245–246), fetch `{link}package.yml`; on failure
   send the manifest-failure report and return;
5. write the descriptor under `{dir_type}/data/`, parse it, abort with the
   platform message when `dir_type` is not in `supported`;
6. send the installing embed, make the package directory, run the file loop,
   request load (reload when already loaded) of
   `{dir_type}.packages.{name}`, edit the embed to the installed form. -/
def install (safeMode : Bool) (dirType : String)
    (registry : List (String × String)) (verified0 : Bool)
    (net : String → FetchResult) (parse : String → Manifest)
    (package : String) : InstallTrace :=
  if pyStartsWith package "https://github.com/" then
    match pySplit (pyReplace package "https://github.com/" "") "/" with
    | owner :: repo :: _ =>
      if safeMode && !verified0 then
        { sent := [.caution], verifiedAfter := verified0 }
      else
        let link := apiLink owner repo
        match net (link ++ "package.yml") with
        | .err s =>
          { sent := [.manifestFetchFailed repo owner s],
            fetches := [link ++ "package.yml"],
            verifiedAfter := false }
        | .ok content =>
          let m := parse content
          let dataW := [(dirType ++ "/data/" ++ repo ++ ".yml", content)]
          if !(m.supported.contains dirType) then
            { sent := [.unsupportedPlatform dirType],
              fetches := [link ++ "package.yml"],
              dataWrites := dataW,
              verifiedAfter := false }
          else
            let r := installLoop net link dirType m.name m.author m.files
            { sent := .installing repo :: (r.msgs ++ [.installed repo]),
              fetches := (link ++ "package.yml") :: r.fetches,
              dataWrites := dataW,
              packageWrites := r.writes,
              mkdirs := [dirType ++ "/packages/" ++ m.name],
              verifiedAfter := false,
              loadAttempted := some (dirType ++ ".packages." ++ m.name) }
    | _ =>
      { verifiedAfter := verified0, error := some .indexError }
  else
    match registry.find? (fun x => x.1 == package) with
    | none =>
      { sent := [.invalidLink], verifiedAfter := verified0 }
    | some _ =>
      { verifiedAfter := verified0, error := some .indexError }

/-- Trace of one `uninstall` invocation. -/
structure UninstallTrace where
  sent : List Msg := []
  removedDirs : List String := []
  unloadName : Option String := none
  synced : Bool := false
  error : Option PyErr := none
deriving DecidableEq, Repr

/-- Embedding of the `uninstall` command (lines 154–178).  `dirs` is the set
of directories existing on disk.  The embed is built first (pure), then
`rmtree(f"{dir_type}/packages/{package}")` runs — raising `FileNotFoundError`
when the directory is absent — then the extension named
`{dir_type}/packages/{package}` (with slashes, exactly as the f-string at
line 175 renders it) is unloaded, the tree synced and the embed sent. -/
def uninstall (dirType : String) (dirs : List String) (package : String) :
    UninstallTrace :=
  let target := dirType ++ "/packages/" ++ package
  if dirs.contains target then
    { sent := [.removed package],
      removedDirs := [target],
      unloadName := some (dirType ++ "/packages/" ++ package),
      synced := true }
  else
    { error := some .fileNotFoundError }

end DexPack

/-- Trace of one `verify_packages` run. -/
structure VerifyTrace where
  fetches : List String := []
  warned : Bool := false
  registry : List (String × String) := []
  error : Option PyErr := none
deriving DecidableEq, Repr

/-- Embedding of module-level `verify_packages` (lines 41–55), run once at
process start (line 358).  The response of the request is bound to `request`,
but the status check at line 46 reads `r.status_code`, and `r` is bound
nowhere in the module: the function raises `NameError` on every run, whatever
the response was, before the warning branch or the registry-population loop
can execute. -/
def verify_packages (net : String → FetchResult) : VerifyTrace :=
  let url := "https://api.github.com/repos/Dotsian/DexPack/contents/verified.txt"
  let _request := net url
  { fetches := [url], error := some (.nameError "r") }

/-- The synchronous segment of `install` from the safe-mode check (line 231)
to the flag reset (lines 245–246), acting on the shared `verified` flag.
No `await` occurs between the check and the reset (the caution send at line
232 happens only on the branch that returns without touching the flag), so
under the single-threaded cooperative scheduler of the host this whole
segment runs atomically.  Returns (proceeded with the flag observed true,
flag afterwards). -/
def gateStep (safeMode isVer flag : Bool) : Bool × Bool :=
  if safeMode && !flag && !isVer then (false, flag)
  else (flag, false)

/-! ## Concrete inputs used by witnesses and counterexamples -/

/-- A network where every request fails with status 404. -/
def netErr404 : String → FetchResult := fun _ => .err 404

/-- A concrete manifest: three listed files, supporting the `ballsdex`
platform. -/
def sampleManifest : Manifest :=
  { name := "widgets", author := "dot", description := "d", version := "1",
    files := ["a.py", "b.py", "c.py"], supported := ["ballsdex"] }

/-- A parser returning `sampleManifest` for any manifest text. -/
def parseSample : String → Manifest := fun _ => sampleManifest

/-- A network serving the manifest and files of `acme/widgets`, where the
request for `b.py` fails with 404 and every other file succeeds. -/
def netSample : String → FetchResult := fun url =>
  if url = apiLink "acme" "widgets" ++ "package.yml" then .ok "MANIFEST"
  else if url = apiLink "acme" "widgets" ++ "widgets/b.py" then .err 404
  else .ok "CODE"

/-- A network where every request succeeds with the manifest text. -/
def netOkAll : String → FetchResult := fun _ => .ok "MANIFEST"

/-- A parser whose manifest supports only the other host platform. -/
def parseOtherPlatform : String → Manifest :=
  fun _ => { sampleManifest with supported := ["carfigures"] }

/-! ## Helper lemmas shared by the claim theorems -/

/-- With safe mode on, the flag false and a URL-shaped reference that splits
into at least owner and repository, `install` stops at the caution branch:
the whole resulting trace is the caution message and nothing else. -/
theorem install_url_blocked (dirType : String) (registry : List (String × String))
    (net : String → FetchResult) (parse : String → Manifest)
    (package owner repo : String) (rest : List String)
    (hurl : pyStartsWith package "https://github.com/" = true)
    (hsplit : pySplit (pyReplace package "https://github.com/" "") "/" = owner :: repo :: rest) :
    DexPack.install true dirType registry false net parse package =
      { sent := [Msg.caution], verifiedAfter := false } := by
  unfold DexPack.install
  rw [hurl, hsplit]
  simp

/-- Any `install` on a URL-shaped reference that passes reference resolution
resets the `verified` flag, whatever the fetch and platform checks do. -/
theorem install_url_consumes (safeMode : Bool) (dirType : String)
    (registry : List (String × String))
    (net : String → FetchResult) (parse : String → Manifest)
    (package owner repo : String) (rest : List String)
    (hurl : pyStartsWith package "https://github.com/" = true)
    (hsplit : pySplit (pyReplace package "https://github.com/" "") "/" = owner :: repo :: rest) :
    (DexPack.install safeMode dirType registry true net parse package).verifiedAfter = false := by
  unfold DexPack.install
  rw [hurl, hsplit]
  simp only [Bool.not_true, Bool.and_false, Bool.false_eq_true, if_false]
  cases net (apiLink owner repo ++ "package.yml") with
  | err s => rfl
  | ok content =>
    by_cases h : dirType ∈ (parse content).supported <;> simp [h]

/-- The full trace of an `install` that passes the gate, fetches the manifest
and passes the platform check, expressed through `installLoop`. -/
theorem install_success_trace (safeMode : Bool) (dirType : String)
    (registry : List (String × String)) (verified0 : Bool)
    (net : String → FetchResult) (parse : String → Manifest)
    (package owner repo : String) (rest : List String) (content : String)
    (hurl : pyStartsWith package "https://github.com/" = true)
    (hsplit : pySplit (pyReplace package "https://github.com/" "") "/" = owner :: repo :: rest)
    (hgate : safeMode = false ∨ verified0 = true)
    (hman : net (apiLink owner repo ++ "package.yml") = FetchResult.ok content)
    (hsupp : (parse content).supported.contains dirType = true) :
    DexPack.install safeMode dirType registry verified0 net parse package =
      { sent := Msg.installing repo ::
          ((installLoop net (apiLink owner repo) dirType (parse content).name
              (parse content).author (parse content).files).msgs ++ [Msg.installed repo]),
        fetches := (apiLink owner repo ++ "package.yml") ::
          (installLoop net (apiLink owner repo) dirType (parse content).name
              (parse content).author (parse content).files).fetches,
        dataWrites := [(dirType ++ "/data/" ++ repo ++ ".yml", content)],
        packageWrites := (installLoop net (apiLink owner repo) dirType (parse content).name
              (parse content).author (parse content).files).writes,
        mkdirs := [dirType ++ "/packages/" ++ (parse content).name],
        verifiedAfter := false,
        loadAttempted := some (dirType ++ ".packages." ++ (parse content).name) } := by
  unfold DexPack.install
  rw [hurl, hsplit]
  have hg : (safeMode && !verified0) = false := by
    rcases hgate with h | h <;> simp [h]
  rw [hg]
  have hmem : dirType ∈ (parse content).supported := by simpa using hsupp
  simp [hman, hmem]

/-- The files the download loop writes are exactly the listed files whose
fetch succeeded, each under the package directory with its fetched body. -/
theorem installLoop_writes_eq (net : String → FetchResult) (link dirType name author : String)
    (fs : List String) :
    (installLoop net link dirType name author fs).writes =
      (fs.filter (fun f => (net (link ++ (name ++ "/" ++ f))).isOk)).map
        (fun f => (pkgFilePath dirType name f, (net (link ++ (name ++ "/" ++ f))).contentOf)) := by
  induction fs with
  | nil => rfl
  | cons f fs ih =>
    simp only [installLoop, List.filter_cons]
    cases hf : net (link ++ (name ++ "/" ++ f)) <;>
      simp [hf, FetchResult.isOk, FetchResult.contentOf, ih]

/-- The messages the download loop sends are exactly one failure report per
listed file whose fetch failed, each naming the file and the author. -/
theorem installLoop_msgs_eq (net : String → FetchResult) (link dirType name author : String)
    (fs : List String) :
    (installLoop net link dirType name author fs).msgs =
      (fs.filter (fun f => !(net (link ++ (name ++ "/" ++ f))).isOk)).map
        (fun f => Msg.fileFetchFailed f author (net (link ++ (name ++ "/" ++ f))).statusOf) := by
  induction fs with
  | nil => rfl
  | cons f fs ih =>
    simp only [installLoop, List.filter_cons]
    cases hf : net (link ++ (name ++ "/" ++ f)) <;>
      simp [hf, FetchResult.isOk, FetchResult.statusOf, ih]

/-- A list splits into the elements satisfying a boolean predicate and those
falsifying it. -/
theorem length_filter_add_length_filter_neg {α : Type} (p : α → Bool) (l : List α) :
    (l.filter p).length + (l.filter (fun a => !p a)).length = l.length := by
  induction l with
  | nil => rfl
  | cons a l ih =>
    cases h : p a <;> simp [List.filter_cons, h, Nat.succ_add, ← ih]
    omega

/-! ## Claim theorems -/

/-- C1: for every install attempt on a raw `(owner, repository)` reference
while the confirmation flag is false and safe mode is enabled, `install`
sends the caution message and returns with zero fetch invocations, zero file
writes, and the confirmation flag still false.  (Proved for every registry,
so in particular for registries not containing the reference; the code never
consults the registry for a URL-shaped argument.) -/
theorem C1_unverified_raw_install_blocks (dirType : String)
    (registry : List (String × String))
    (net : String → FetchResult) (parse : String → Manifest)
    (package owner repo : String) (rest : List String)
    (hurl : pyStartsWith package "https://github.com/" = true)
    (hsplit : pySplit (pyReplace package "https://github.com/" "") "/" = owner :: repo :: rest) :
    (DexPack.install true dirType registry false net parse package).sent = [Msg.caution] ∧
    (DexPack.install true dirType registry false net parse package).fetches = [] ∧
    (DexPack.install true dirType registry false net parse package).verifiedAfter = false ∧
    (DexPack.install true dirType registry false net parse package).dataWrites = [] ∧
    (DexPack.install true dirType registry false net parse package).packageWrites = [] := by
  rw [install_url_blocked dirType registry net parse package owner repo rest hurl hsplit]
  exact ⟨rfl, rfl, rfl, rfl, rfl⟩

/-- Witness for C1 at the concrete reference `acme/widgets`. -/
theorem C1_unverified_raw_install_blocks_witness :
    (DexPack.install true "ballsdex" [] false netErr404 parseSample
        "https://github.com/acme/widgets").sent = [Msg.caution] ∧
    (DexPack.install true "ballsdex" [] false netErr404 parseSample
        "https://github.com/acme/widgets").fetches = [] ∧
    (DexPack.install true "ballsdex" [] false netErr404 parseSample
        "https://github.com/acme/widgets").verifiedAfter = false ∧
    (DexPack.install true "ballsdex" [] false netErr404 parseSample
        "https://github.com/acme/widgets").dataWrites = [] ∧
    (DexPack.install true "ballsdex" [] false netErr404 parseSample
        "https://github.com/acme/widgets").packageWrites = [] :=
  C1_unverified_raw_install_blocks "ballsdex" [] netErr404 parseSample
    "https://github.com/acme/widgets" "acme" "widgets" [] (by decide) (by decide)

/-- C2 counterexample: with the confirmation flag true, an install attempt on
a bare name absent from the registry (an attempt with an outcome, the
invalid-link reply) leaves the flag true, so the flag is not reset by the
very next install attempt regardless of outcome. -/
theorem C2_flag_survives_invalid_name_counterexample :
    (DexPack.install true "ballsdex" [] true netErr404 parseSample "widgets").verifiedAfter
        = true ∧
    (DexPack.install true "ballsdex" [] true netErr404 parseSample "widgets").sent
        = [Msg.invalidLink] := by
  decide

/-- C2 (amended): after the flag is set true, the very next install attempt
whose argument is a URL-shaped reference resets it to false regardless of
that attempt's outcome, and an unverified raw install after that is blocked
again; an attempt rejected at reference resolution (bare name absent from
the registry) leaves the flag unchanged. -/
theorem C2_flag_consumed_by_next_resolved_install (safeMode : Bool) (dirType : String)
    (registry : List (String × String))
    (net : String → FetchResult) (parse : String → Manifest)
    (package owner repo : String) (rest : List String)
    (hurl : pyStartsWith package "https://github.com/" = true)
    (hsplit : pySplit (pyReplace package "https://github.com/" "") "/" = owner :: repo :: rest) :
    (DexPack.install safeMode dirType registry true net parse package).verifiedAfter = false ∧
    (DexPack.install true dirType registry false net parse package).sent = [Msg.caution] ∧
    (DexPack.install true dirType registry false net parse package).fetches = [] := by
  refine ⟨install_url_consumes safeMode dirType registry net parse package owner repo rest
    hurl hsplit, ?_, ?_⟩ <;>
    rw [install_url_blocked dirType registry net parse package owner repo rest hurl hsplit]

/-- Witness for the amended C2 at the concrete reference `acme/widgets`. -/
theorem C2_flag_consumed_by_next_resolved_install_witness :
    (DexPack.install true "ballsdex" [] true netErr404 parseSample
        "https://github.com/acme/widgets").verifiedAfter = false ∧
    (DexPack.install true "ballsdex" [] false netErr404 parseSample
        "https://github.com/acme/widgets").sent = [Msg.caution] ∧
    (DexPack.install true "ballsdex" [] false netErr404 parseSample
        "https://github.com/acme/widgets").fetches = [] :=
  C2_flag_consumed_by_next_resolved_install true "ballsdex" [] netErr404 parseSample
    "https://github.com/acme/widgets" "acme" "widgets" [] (by decide) (by decide)

/-- C3: the flag check (line 231) and the flag reset (lines 245–246) lie in
one await-free segment, modelled as the atomic `gateStep`; in either order
of two racing install attempts starting from a true flag, at most one of
them proceeds having observed the flag true (the first component of
`gateStep`), so no two installs consume the same confirmation. -/
theorem C3_gate_check_and_consume_atomic :
    ∀ sm1 iv1 sm2 iv2 : Bool,
      ¬((gateStep sm1 iv1 true).1 = true ∧
        (gateStep sm2 iv2 (gateStep sm1 iv1 true).2).1 = true) := by
  decide

/-- C4: an install invocation on a bare name present in the registry raises
`IndexError` at `original_name = package_info[1]` (because
`list(found_package)` is a one-element list of pairs) before any message,
network call or write — it does not proceed with the canonical reference. -/
theorem C4_registry_name_install_raises :
    DexPack.install true "ballsdex" [("example", "Dotsian/Example")] false
        netErr404 parseSample "example" =
      { verifiedAfter := false, error := some PyErr.indexError } := by
  decide

/-- C5: `verify_packages` reads `r.status_code` where `r` is unbound, so for
every network response it raises `NameError` — it neither logs the warning
nor populates the registry, on failure or on success. -/
theorem C5_verify_packages_always_raises (net : String → FetchResult) :
    (verify_packages net).error = some (PyErr.nameError "r") ∧
    (verify_packages net).warned = false ∧
    (verify_packages net).registry = [] :=
  ⟨rfl, rfl, rfl⟩

/-- C6: for an install whose manifest fetch succeeds and whose platform check
passes, with K of the N listed files failing to download: exactly N − K
files are written, all under the package directory; exactly K failure
reports are sent, each a per-file report naming a listed file and the
manifest's declared author; and the load/reload of the module is still
attempted. -/
theorem C6_partial_file_failures_continue (safeMode : Bool) (dirType : String)
    (registry : List (String × String)) (verified0 : Bool)
    (net : String → FetchResult) (parse : String → Manifest)
    (package owner repo : String) (rest : List String) (content : String)
    (hurl : pyStartsWith package "https://github.com/" = true)
    (hsplit : pySplit (pyReplace package "https://github.com/" "") "/" = owner :: repo :: rest)
    (hgate : safeMode = false ∨ verified0 = true)
    (hman : net (apiLink owner repo ++ "package.yml") = FetchResult.ok content)
    (hsupp : (parse content).supported.contains dirType = true) :
    (DexPack.install safeMode dirType registry verified0 net parse package).packageWrites.length
      = (parse content).files.length -
        ((parse content).files.filter
          (fun f => !(net (apiLink owner repo ++ ((parse content).name ++ "/" ++ f))).isOk)).length ∧
    ((DexPack.install safeMode dirType registry verified0 net parse package).sent.filter
        Msg.isFileFail).length
      = ((parse content).files.filter
          (fun f => !(net (apiLink owner repo ++ ((parse content).name ++ "/" ++ f))).isOk)).length ∧
    (∀ msg ∈ (DexPack.install safeMode dirType registry verified0 net parse package).sent,
      msg.isFileFail = true →
      ∃ f s, f ∈ (parse content).files ∧ msg = Msg.fileFetchFailed f (parse content).author s) ∧
    (∀ w ∈ (DexPack.install safeMode dirType registry verified0 net parse package).packageWrites,
      ∃ f, f ∈ (parse content).files ∧ w.1 = pkgFilePath dirType (parse content).name f) ∧
    (DexPack.install safeMode dirType registry verified0 net parse package).loadAttempted
      = some (dirType ++ ".packages." ++ (parse content).name) := by
  have ht := install_success_trace safeMode dirType registry verified0 net parse package
    owner repo rest content hurl hsplit hgate hman hsupp
  rw [ht]
  refine ⟨?_, ?_, ?_, ?_, rfl⟩
  · rw [installLoop_writes_eq, List.length_map]
    have hsum := length_filter_add_length_filter_neg
      (fun f => (net (apiLink owner repo ++ ((parse content).name ++ "/" ++ f))).isOk)
      (parse content).files
    omega
  · simp only [List.filter_cons, List.filter_append, Msg.isFileFail, installLoop_msgs_eq]
    simp [List.filter_map, Function.comp, Msg.isFileFail]
  · intro msg hmem hff
    simp only [List.mem_cons, List.mem_append, List.mem_singleton] at hmem
    rcases hmem with h1 | h2 | h3
    · rw [h1] at hff; simp [Msg.isFileFail] at hff
    · rw [installLoop_msgs_eq] at h2
      simp only [List.mem_map, List.mem_filter] at h2
      obtain ⟨f, ⟨hf, _⟩, hm⟩ := h2
      exact ⟨f, _, hf, hm.symm⟩
    · rcases h3 with h3 | h3
      · rw [h3] at hff; simp [Msg.isFileFail] at hff
      · simp at h3
  · intro w hw
    rw [installLoop_writes_eq] at hw
    simp only [List.mem_map, List.mem_filter] at hw
    obtain ⟨f, ⟨hf, _⟩, hww⟩ := hw
    exact ⟨f, hf, by rw [← hww]⟩

/-- Witness for C6: three listed files of which exactly one fails, so two
files are written, one failure report is sent, and the load is attempted. -/
theorem C6_partial_file_failures_continue_witness :
    (DexPack.install false "ballsdex" [] false netSample parseSample
        "https://github.com/acme/widgets").packageWrites.length = 2 ∧
    ((DexPack.install false "ballsdex" [] false netSample parseSample
        "https://github.com/acme/widgets").sent.filter Msg.isFileFail).length = 1 ∧
    (DexPack.install false "ballsdex" [] false netSample parseSample
        "https://github.com/acme/widgets").loadAttempted
      = some "ballsdex.packages.widgets" := by
  have h := C6_partial_file_failures_continue false "ballsdex" [] false netSample parseSample
    "https://github.com/acme/widgets" "acme" "widgets" [] "MANIFEST"
    (by decide) (by decide) (Or.inl rfl) (by decide) (by decide)
  exact ⟨h.1.trans (by decide), h.2.1.trans (by decide), h.2.2.2.2.trans (by decide)⟩

/-- C7: when the fetched manifest's supported set does not contain the
running host identity, the install aborts with the unsupported-platform
report: no listed file is written, no package directory is made and no load
is attempted (the manifest descriptor itself was already persisted under
`data/` by the fetch step, as the spec's Manifest Fetcher contract requires). -/
theorem C7_unsupported_platform_aborts (safeMode : Bool) (dirType : String)
    (registry : List (String × String)) (verified0 : Bool)
    (net : String → FetchResult) (parse : String → Manifest)
    (package owner repo : String) (rest : List String) (content : String)
    (hurl : pyStartsWith package "https://github.com/" = true)
    (hsplit : pySplit (pyReplace package "https://github.com/" "") "/" = owner :: repo :: rest)
    (hgate : safeMode = false ∨ verified0 = true)
    (hman : net (apiLink owner repo ++ "package.yml") = FetchResult.ok content)
    (hsupp : (parse content).supported.contains dirType = false) :
    DexPack.install safeMode dirType registry verified0 net parse package =
      { sent := [Msg.unsupportedPlatform dirType],
        fetches := [apiLink owner repo ++ "package.yml"],
        dataWrites := [(dirType ++ "/data/" ++ repo ++ ".yml", content)],
        verifiedAfter := false } := by
  unfold DexPack.install
  rw [hurl, hsplit]
  have hg : (safeMode && !verified0) = false := by
    rcases hgate with h | h <;> simp [h]
  rw [hg]
  have hnmem : dirType ∉ (parse content).supported := by simpa using hsupp
  simp [hman, hnmem]

/-- Witness for C7: a manifest supporting only `carfigures` on a `ballsdex`
host. -/
theorem C7_unsupported_platform_aborts_witness :
    DexPack.install false "ballsdex" [] false netOkAll parseOtherPlatform
        "https://github.com/acme/widgets" =
      { sent := [Msg.unsupportedPlatform "ballsdex"],
        fetches := [apiLink "acme" "widgets" ++ "package.yml"],
        dataWrites := [("ballsdex" ++ "/data/" ++ "widgets" ++ ".yml", "MANIFEST")],
        verifiedAfter := false } :=
  C7_unsupported_platform_aborts false "ballsdex" [] false netOkAll parseOtherPlatform
    "https://github.com/acme/widgets" "acme" "widgets" [] "MANIFEST"
    (by decide) (by decide) (Or.inl rfl) (by decide) (by decide)

/-- C8 counterexample: uninstalling a package whose directory does not exist
raises an uncaught `FileNotFoundError` from `rmtree` — the command crashes
and no message at all is sent, contradicting "returns a not-found outcome
and does not crash". -/
theorem C8_missing_dir_crash_counterexample :
    (DexPack.uninstall "ballsdex" [] "ghost").error = some PyErr.fileNotFoundError ∧
    (DexPack.uninstall "ballsdex" [] "ghost").sent = [] := by
  decide

/-- C8 (amended): for every uninstall of a package name whose installed-files
directory does not exist, the operation raises an uncaught file-not-found
error, performs no filesystem mutation (nothing removed), requests no module
unload and sends no message. -/
theorem C8_missing_dir_raises (dirType pkg : String) (dirs : List String)
    (h : dirs.contains (dirType ++ "/packages/" ++ pkg) = false) :
    DexPack.uninstall dirType dirs pkg = { error := some PyErr.fileNotFoundError } := by
  unfold DexPack.uninstall
  simp [h]
  simpa using h

/-- Witness for the amended C8. -/
theorem C8_missing_dir_raises_witness :
    DexPack.uninstall "ballsdex" ["ballsdex/packages/other"] "ghost" =
      { error := some PyErr.fileNotFoundError } :=
  C8_missing_dir_raises "ballsdex" "ghost" ["ballsdex/packages/other"] (by decide)

/-- C9: install loads the module as `{dir_type}.packages.{name}` (dots, line
311) while uninstall requests the unload as `{dir_type}/packages/{package}`
(slashes, line 175): on the concrete package `widgets` the two module names
differ, so the unload is not issued under the name the load used. -/
theorem C9_load_and_unload_module_names_differ :
    (DexPack.install false "ballsdex" [] false netSample parseSample
        "https://github.com/acme/widgets").loadAttempted
      = some "ballsdex.packages.widgets" ∧
    (DexPack.uninstall "ballsdex" ["ballsdex/packages/widgets"] "widgets").unloadName
      = some "ballsdex/packages/widgets" ∧
    ("ballsdex/packages/widgets" : String) ≠ "ballsdex.packages.widgets" := by
  decide

/-- C10: an install invocation on a bare name (not URL-shaped) absent from
the registry replies with the invalid-link message and returns with zero
fetches and zero writes, and the confirmation flag is left exactly as it
was. -/
theorem C10_invalid_bare_name_returns_early (safeMode : Bool) (dirType : String)
    (registry : List (String × String)) (verified0 : Bool)
    (net : String → FetchResult) (parse : String → Manifest) (package : String)
    (hurl : pyStartsWith package "https://github.com/" = false)
    (hreg : registry.find? (fun x => x.1 == package) = none) :
    DexPack.install safeMode dirType registry verified0 net parse package =
      { sent := [Msg.invalidLink], verifiedAfter := verified0 } := by
  unfold DexPack.install
  rw [hurl, hreg]
  simp

/-- Witness for C10 with the flag true: it stays true. -/
theorem C10_invalid_bare_name_returns_early_witness :
    DexPack.install true "ballsdex" [] true netErr404 parseSample "widgets" =
      { sent := [Msg.invalidLink], verifiedAfter := true } :=
  C10_invalid_bare_name_returns_early true "ballsdex" [] true netErr404 parseSample
    "widgets" (by decide) (by decide)
